import Mathlib

/-!
Shallow embedding of jrasp-daemon/environ/environ.go (package environ).

The Go code builds an immutable snapshot of the host environment: install
directory, hostname (resolved through a disk cache with OS fallback), the
default-route IP address, binary name and hash, and best-effort capacity
facts.  External effects (the OS path resolver, the md5 hasher, the UDP
dial, the gopsutil stat providers, the filesystem) are modelled as explicit
oracle inputs collected in a World structure; each Go function becomes a
Lean function of the oracles it consumes, and stateful file writes are
modelled by explicit state passing of an FsState value.
-/

namespace environ

/-- Abstract Go error values, one constructor per failure site that the
    source distinguishes. -/
inductive GoErr where
  | pathErr
  | hashErr
  | dialErr
  | statErr
  | readErr
  | writeErr
  | notExist
  | diskErr
  | memErr
  | cpuErr
  deriving DecidableEq, Repr

/-- Outcome of an os.Stat-style existence check on one path: the file is
    present, absent, or the check itself fails (e.g. permissions). -/
inductive StatOutcome where
  | present
  | absent
  | err (e : GoErr)
  deriving DecidableEq, Repr

/-- Modelled from the spec: utils.PathExists (jrasp-daemon/utils, not part
    of the provided sources) returns the pair (existed, err); per the spec,
    absence of the file and a permissions error from the check both yield
    false, and only a failing check carries a non-nil error. -/
def utilsPathExists : StatOutcome → Bool × Option GoErr
  | .present => (true, none)
  | .absent => (false, none)
  | .err e => (false, some e)

/-- Go unicode.IsSpace on the characters strings.TrimSpace trims: the
    Unicode White_Space property. -/
def goIsSpace (c : Char) : Bool :=
  let n := c.toNat
  (9 ≤ n && n ≤ 13) || n = 32 || n = 0x85 || n = 0xA0 || n = 0x1680 ||
    (0x2000 ≤ n && n ≤ 0x200A) || n = 0x2028 || n = 0x2029 || n = 0x202F ||
    n = 0x205F || n = 0x3000

/-- Go strings.TrimSpace: drop leading and trailing white space. -/
def goTrimSpace (s : String) : String :=
  String.mk (((s.data.dropWhile goIsSpace).reverse.dropWhile goIsSpace).reverse)

/-- Helper for goSplitColon: Go strings.Split with a one-character
    separator, accumulating the current field in acc (reversed). -/
def splitCharAux (sep : Char) : List Char → List Char → List String
  | [], acc => [String.mk acc.reverse]
  | c :: rest, acc =>
      if c = sep then String.mk acc.reverse :: splitCharAux sep rest []
      else splitCharAux sep rest (c :: acc)

/-- Go strings.Split(s, sep) for a one-character separator; the result is
    never empty (an input without the separator yields the one-element
    list [s]). -/
def goSplitChar (sep : Char) (s : String) : List String :=
  splitCharAux sep s.data []

/-- Go strings.Split(s, ":"), as used on the probed IP string. -/
def goSplitColon (s : String) : List String :=
  goSplitChar ':' s

/-- Go strings.Join(elems, sep): concatenate with the separator between
    fields. -/
def goJoinSep (sep : String) : List String → String
  | [] => ""
  | [x] => x
  | x :: xs => x ++ sep ++ goJoinSep sep xs

/-- Helper for goClean: process path components against an output stack
    (held reversed), implementing the dot-dot / dot / empty-component
    logic of Go path/filepath.Clean for slash-separated paths. -/
def goCleanAux (rooted : Bool) : List String → List String → List String
  | [], out => out
  | c :: rest, out =>
      if c = "" || c = "." then goCleanAux rooted rest out
      else if c = ".." then
        match out with
        | [] => if rooted then goCleanAux rooted rest []
                else goCleanAux rooted rest [".."]
        | o :: os => if o = ".." then goCleanAux rooted rest (".." :: o :: os)
                     else goCleanAux rooted rest os
      else goCleanAux rooted rest (c :: out)

/-- Go path/filepath.Clean for Unix paths: resolve ., .., and repeated
    separators; the empty path cleans to dot. -/
def goClean (path : String) : String :=
  if path = "" then "."
  else
    let rooted := path.data.take 1 = ['/']
    let comps := goCleanAux rooted (goSplitChar '/' path) []
    let body := goJoinSep "/" comps.reverse
    if rooted then "/" ++ body
    else if body = "" then "." else body

/-- Go path/filepath.Dir for Unix paths: everything up to and including the
    last separator, cleaned; a path without a separator has directory dot. -/
def goDir (path : String) : String :=
  goClean (String.mk ((path.data.reverse.dropWhile (fun c => c ≠ '/')).reverse))

/-- Go path/filepath.Base for Unix paths: strip trailing slashes and take
    the last element; empty input gives dot, an all-slash input gives
    the separator itself. -/
def goBase (path : String) : String :=
  if path = "" then "."
  else
    let stripped := path.data.reverse.dropWhile (fun c => c = '/')
    let base := stripped.takeWhile (fun c => c ≠ '/')
    if base = [] then "/" else String.mk base.reverse

/-- Go path/filepath.Join for Unix paths: join the elements from the first
    non-empty one with separators and clean the result; all-empty input
    yields the empty string. -/
def goJoin (elems : List String) : String :=
  match elems.dropWhile (fun e => e = "") with
  | [] => ""
  | rest => goClean (goJoinSep "/" rest)

/-- Constant HOST_NAME from the source: the cache file name. -/
def HOST_NAME : String := "hostname.txt"

/-- Constant GB from the source: bytes per gibibyte. -/
def GB : Nat := 1024 * 1024 * 1024

/-- Explicit filesystem state for the hostname cache: file contents keyed
    by path, plus fault-injection sets naming the paths where an existence
    check, a read, or a write (os.MkdirAll or os.WriteFile) fails. -/
structure FsState where
  files : List (String × String)
  statFail : List String
  readFail : List String
  writeFail : List String
  deriving DecidableEq, Repr

/-- Content of the file at path p, when present. -/
def FsState.lookup (fs : FsState) (p : String) : Option String :=
  fs.files.lookup p

/-- The os.Stat outcome this state produces at path p. -/
def FsState.statOutcome (fs : FsState) (p : String) : StatOutcome :=
  if p ∈ fs.statFail then .err .statErr
  else if (fs.lookup p).isSome then .present
  else .absent

/-- os.ReadFile against this state: a read fault or a missing file is an
    error, otherwise the stored contents. -/
def FsState.readFile (fs : FsState) (p : String) : Except GoErr String :=
  if p ∈ fs.readFail then .error .readErr
  else
    match fs.lookup p with
    | some c => .ok c
    | none => .error .notExist

/-- readHostNameFromFile(hostFile): check existence via utils.PathExists;
    a missing file returns the empty string with the check's error (nil
    when the check succeeded); otherwise read the file and return its
    contents trimmed of surrounding white space. -/
def readHostNameFromFile (fs : FsState) (hostFile : String) :
    String × Option GoErr :=
  let (existed, err) := utilsPathExists (fs.statOutcome hostFile)
  if !existed then ("", err)
  else
    match fs.readFile hostFile with
    | .error e => ("", some e)
    | .ok b => (goTrimSpace b, none)

/-- writeHostNameToFile(hostFile, hostName): os.MkdirAll on the parent then
    os.WriteFile; a fault at the path fails and leaves the state unchanged,
    otherwise the file now holds hostName.  Directories are abstracted
    away: a successful write stands for MkdirAll plus WriteFile. -/
def writeHostNameToFile (fs : FsState) (hostFile hostName : String) :
    Option GoErr × FsState :=
  if hostFile ∈ fs.writeFail then (some .writeErr, fs)
  else (none,
    { fs with files := (hostFile, hostName) :: fs.files.filter (fun kv => kv.1 ≠ hostFile) })

/-- The cache file path filepath.Join(execDir, "config", HOST_NAME). -/
def hostFilePath (execDir : String) : String :=
  goJoin [execDir, "config", HOST_NAME]

/-- getHostname(execDir): read the cached hostname from
    execDir/config/hostname.txt (errors degrade to the empty string), fall
    back to the OS hostname when the value is empty, write the resolved
    value back (the write error is discarded), and return the value
    together with the updated filesystem state. -/
def getHostname (fs : FsState) (osHostname : String) (execDir : String) :
    String × FsState :=
  let hostFile := hostFilePath execDir
  let hostName :=
    match readHostNameFromFile fs hostFile with
    | (h, none) => h
    | (_, some _) => ""
  let hostName := if hostName = "" then osHostname else hostName
  (hostName, (writeHostNameToFile fs hostFile hostName).2)

/-- The dynamic type of the net.Addr returned by conn.LocalAddr(): for a
    UDP connection it is a net.UDPAddr (here: the string rendering of its
    IP, plus the port); any other dynamic type makes the unchecked type
    assertion in GetDefaultIp panic. -/
inductive GoAddr where
  | udp (ip : String) (port : Nat)
  | other
  deriving DecidableEq, Repr

/-- Result of the route probe: an IP string, a Go error, or a runtime
    panic from the failed type assertion. -/
inductive ProbeResult where
  | ok (ip : String)
  | err (e : GoErr)
  | panicked
  deriving DecidableEq, Repr

/-- Result of GetDefaultIp together with the socket bookkeeping: whether a
    socket was opened by the dial and whether it was closed before the
    function returned (the deferred Close runs on normal return and on
    panic alike). -/
structure ProbeOut where
  result : ProbeResult
  opened : Bool
  closed : Bool
  deriving DecidableEq, Repr

/-- GetDefaultIp(): dial a UDP socket towards 114.114.114.114:53 (the dial
    outcome, i.e. the local address the OS chose, is the oracle input); on
    dial failure return the error; otherwise assert the local address to a
    UDP address (panicking if it is not one), split its IP string at
    colons, and return the first field.  Close of the socket is deferred
    right after the successful dial. -/
def GetDefaultIp (dial : Except GoErr GoAddr) : ProbeOut :=
  match dial with
  | .error e => { result := .err e, opened := false, closed := false }
  | .ok localAddr =>
      match localAddr with
      | .udp ip _port =>
          { result := .ok ((goSplitColon ip).headD ""), opened := true, closed := true }
      | .other => { result := .panicked, opened := true, closed := true }

/-- GetInstallDisk(path): query disk.Usage (the oracle gives free bytes or
    an error); on error return zero and the error, otherwise free space in
    gibibytes. -/
def GetInstallDisk (diskUsage : Except GoErr Nat) : Nat × Option GoErr :=
  match diskUsage with
  | .error e => (0, some e)
  | .ok free => (free / GB, none)

/-- isContainer(): utils.PathExists on /.dockerenv with the error
    discarded. -/
def isContainer (dockerenv : StatOutcome) : Bool :=
  (utilsPathExists dockerenv).1

/-- Oracle inputs of one NewEnviron run: the outcome of every external
    call the function makes, in source order.  Build-time constants
    (version, build metadata, the pid file name from the defs package) are
    link-time inputs and appear here as plain strings. -/
structure World where
  absPath : Except GoErr String
  md5Res : Except GoErr String
  dial : Except GoErr GoAddr
  memTotal : Nat
  memErr : Option GoErr
  diskFree : Except GoErr Nat
  cpuCount : Nat
  cpuErr : Option GoErr
  dockerenv : StatOutcome
  osHostname : String
  fs : FsState
  goos : String
  version : String
  buildDateTime : String
  buildGitBranch : String
  buildGitCommit : String
  buildDecryptKey : String
  daemonPidFile : String

/-- The Environ snapshot record, field for field as in the source. -/
structure Environ where
  InstallDir : String
  HostName : String
  Ip : String
  OsType : String
  BinFileName : String
  BinFileHash : String
  TotalMem : Nat
  CpuCounts : Nat
  FreeDisk : Nat
  Version : String
  BuildDateTime : String
  BuildGitBranch : String
  BuildGitCommit : String
  BuildDecryptKey : String
  PidFile : String
  IsContainer : Bool
  IsConnectServer : Bool
  deriving DecidableEq, Repr

/-- Outcome of NewEnviron: the snapshot, a propagated error, or a panic
    propagated from GetDefaultIp. -/
inductive BuildResult where
  | ok (env : Environ)
  | err (e : GoErr)
  | panicked
  deriving DecidableEq, Repr

/-- NewEnviron(): resolve the absolute executable path (fatal on error),
    derive the install dir two levels up, hash the binary (fatal on
    error), probe the default-route IP (fatal on error), then query the
    memory, disk, cpu and container-marker collaborators with their errors
    discarded, resolve the hostname, and assemble the snapshot. -/
def NewEnviron (w : World) : BuildResult :=
  match w.absPath with
  | .error e => .err e
  | .ok execPath =>
    let execDir := goDir (goDir execPath)
    match w.md5Res with
    | .error e => .err e
    | .ok md5Str =>
      let execName := goBase execPath
      match (GetDefaultIp w.dial).result with
      | .panicked => .panicked
      | .err e => .err e
      | .ok ipAddress =>
        let memTotal := w.memTotal
        let freeDisk := (GetInstallDisk w.diskFree).1
        let cpuCounts := w.cpuCount
        let isCont := (utilsPathExists w.dockerenv).1
        .ok
          { InstallDir := execDir
            HostName := (getHostname w.fs w.osHostname execDir).1
            Ip := ipAddress
            OsType := w.goos
            BinFileName := execName
            BinFileHash := md5Str
            TotalMem := memTotal / GB
            CpuCounts := cpuCounts
            FreeDisk := freeDisk
            Version := w.version
            BuildDateTime := w.buildDateTime
            BuildGitBranch := w.buildGitBranch
            BuildGitCommit := w.buildGitCommit
            BuildDecryptKey := w.buildDecryptKey
            PidFile := goJoin [execDir, w.daemonPidFile]
            IsContainer := isCont
            IsConnectServer := false }

/-! ### Helper lemmas -/

lemma splitCharAux_eq_of_not_mem (sep : Char) :
    ∀ (l acc : List Char), sep ∉ l →
      splitCharAux sep l acc = [String.mk (acc.reverse ++ l)] := by
  intro l
  induction l with
  | nil => intro acc _; simp [splitCharAux]
  | cons c rest ih =>
      intro acc h
      have hc : ¬ c = sep := fun hc => h (hc ▸ List.mem_cons_self c rest)
      rw [splitCharAux, if_neg hc, ih (c :: acc) (fun hm => h (List.mem_cons_of_mem c hm))]
      simp

lemma goSplitColon_of_no_colon (s : String) (h : ':' ∉ s.data) :
    goSplitColon s = [s] := by
  cases s with
  | mk d =>
      rw [goSplitColon, goSplitChar, splitCharAux_eq_of_not_mem ':' d [] h]
      rfl

/-! ### Claims about GetDefaultIp -/

/-- C5: GetDefaultIp returns an error exactly when the UDP dial fails; on
    success (the local endpoint of a UDP dial is a UDP address, whose IP
    string has no colon in the IPv4 case) it returns the local endpoint's
    IP with the colon-split leaving it unchanged, and whenever a socket
    was opened it is closed before the function returns. -/
theorem GetDefaultIp_spec (dial : Except GoErr GoAddr)
    (hudp : ∀ a, dial = .ok a →
      ∃ ip port, a = GoAddr.udp ip port ∧ ':' ∉ ip.data) :
    (∀ e, (GetDefaultIp dial).result = .err e ↔ dial = .error e)
    ∧ (∀ ip port, dial = .ok (GoAddr.udp ip port) →
        (GetDefaultIp dial).result = .ok ip)
    ∧ ((GetDefaultIp dial).opened = true → (GetDefaultIp dial).closed = true) := by
  refine ⟨?_, ?_, ?_⟩
  · intro e
    cases hd : dial with
    | error e' => simp [GetDefaultIp]
    | ok a =>
        obtain ⟨ip, port, ha, _⟩ := hudp a hd
        subst ha
        simp [GetDefaultIp]
  · intro ip port hd
    obtain ⟨ip', port', ha, hcolon⟩ := hudp _ hd
    obtain ⟨rfl, rfl⟩ : ip = ip' ∧ port = port' := by
      cases ha; exact ⟨rfl, rfl⟩
    rw [hd]
    simp [GetDefaultIp, goSplitColon_of_no_colon ip hcolon]
  · cases dial with
    | error e => simp [GetDefaultIp]
    | ok a => cases a <;> simp [GetDefaultIp]

/-- Witness for C5 at a concrete dial outcome: local endpoint
    10.0.0.5:40000 yields the IP string 10.0.0.5. -/
theorem GetDefaultIp_spec_witness :
    (GetDefaultIp (.ok (GoAddr.udp "10.0.0.5" 40000))).result = .ok "10.0.0.5" :=
  (GetDefaultIp_spec (.ok (GoAddr.udp "10.0.0.5" 40000))
    (by intro a ha; cases ha; exact ⟨_, _, rfl, by decide⟩)).2.1
    "10.0.0.5" 40000 rfl

/-- C10: under the net-package guarantee that the local address of a UDP
    connection has dynamic type net.UDPAddr, the unchecked type assertion
    in GetDefaultIp succeeds: the probe never panics, and every call ends
    with either an IP string or an error. -/
theorem GetDefaultIp_no_panic (dial : Except GoErr GoAddr)
    (hudp : ∀ a, dial = .ok a → ∃ ip port, a = GoAddr.udp ip port) :
    (GetDefaultIp dial).result ≠ .panicked
    ∧ ((∃ ip, (GetDefaultIp dial).result = .ok ip)
        ∨ (∃ e, (GetDefaultIp dial).result = .err e)) := by
  cases hd : dial with
  | error e => exact ⟨by simp [GetDefaultIp], Or.inr ⟨e, by simp [GetDefaultIp]⟩⟩
  | ok a =>
      obtain ⟨ip, port, ha⟩ := hudp a hd
      subst ha
      exact ⟨by simp [GetDefaultIp], Or.inl ⟨_, rfl⟩⟩

/-- Witness for C10 at a concrete dial outcome. -/
theorem GetDefaultIp_no_panic_witness :
    (GetDefaultIp (.ok (GoAddr.udp "192.168.1.2" 999))).result ≠ .panicked :=
  (GetDefaultIp_no_panic (.ok (GoAddr.udp "192.168.1.2" 999))
    (by intro a ha; cases ha; exact ⟨_, _, rfl⟩)).1

/-! ### Helper lemmas about the hostname cache -/

lemma readHostNameFromFile_hit (fs : FsState) (p c : String)
    (hs : p ∉ fs.statFail) (hr : p ∉ fs.readFail) (hc : fs.lookup p = some c) :
    readHostNameFromFile fs p = (goTrimSpace c, none) := by
  simp [readHostNameFromFile, FsState.statOutcome, FsState.readFile,
    utilsPathExists, hs, hr, hc]

lemma readHostNameFromFile_miss (fs : FsState) (p : String)
    (hs : p ∉ fs.statFail) (hc : fs.lookup p = none) :
    readHostNameFromFile fs p = ("", none) := by
  simp [readHostNameFromFile, FsState.statOutcome, utilsPathExists, hs, hc]

lemma getHostname_val_of_read (fs : FsState) (osName dir v : String)
    (h : readHostNameFromFile fs (hostFilePath dir) = (v, none)) (hv : v ≠ "") :
    (getHostname fs osName dir).1 = v := by
  simp [getHostname, h, hv]

lemma getHostname_val_of_empty_read (fs : FsState) (osName dir : String)
    (h : readHostNameFromFile fs (hostFilePath dir) = ("", none)) :
    (getHostname fs osName dir).1 = osName := by
  simp [getHostname, h]

lemma getHostname_val_of_miss (fs : FsState) (osName dir : String)
    (hs : hostFilePath dir ∉ fs.statFail)
    (hc : fs.lookup (hostFilePath dir) = none) :
    (getHostname fs osName dir).1 = osName :=
  getHostname_val_of_empty_read fs osName dir
    (readHostNameFromFile_miss fs _ hs hc)

lemma getHostname_val_of_hit (fs : FsState) (osName dir c : String)
    (hs : hostFilePath dir ∉ fs.statFail)
    (hr : hostFilePath dir ∉ fs.readFail)
    (hc : fs.lookup (hostFilePath dir) = some c)
    (hne : goTrimSpace c ≠ "") :
    (getHostname fs osName dir).1 = goTrimSpace c :=
  getHostname_val_of_read fs osName dir _
    (readHostNameFromFile_hit fs _ c hs hr hc) hne

lemma getHostname_snd (fs : FsState) (osName dir : String) :
    (getHostname fs osName dir).2 =
      (writeHostNameToFile fs (hostFilePath dir) (getHostname fs osName dir).1).2 :=
  rfl

lemma writeHostNameToFile_snd (fs : FsState) (p v : String)
    (hw : p ∉ fs.writeFail) :
    (writeHostNameToFile fs p v).2 =
      { fs with files := (p, v) :: fs.files.filter (fun kv => kv.1 ≠ p) } := by
  simp [writeHostNameToFile, hw]

/-! ### Claims about getHostname -/

/-- C2 (amended): when the cache file under installDir exists and is
    readable and its contents do not trim to the empty string, hostname
    resolution returns the trimmed contents. -/
theorem getHostname_returns_trimmed_cache (fs : FsState) (osName dir c : String)
    (hs : hostFilePath dir ∉ fs.statFail)
    (hr : hostFilePath dir ∉ fs.readFail)
    (hc : fs.lookup (hostFilePath dir) = some c)
    (hne : goTrimSpace c ≠ "") :
    (getHostname fs osName dir).1 = goTrimSpace c :=
  getHostname_val_of_hit fs osName dir c hs hr hc hne

/-- Witness for C2: a cache file containing two-space web-07 newline
    resolves to web-07. -/
theorem getHostname_returns_trimmed_cache_witness :
    (getHostname ⟨[("/opt/agent/config/hostname.txt", "  web-07\n")], [], [], []⟩
        "fallback" "/opt/agent").1 = "web-07" :=
  (getHostname_returns_trimmed_cache _ "fallback" "/opt/agent" "  web-07\n"
    (by decide) (by decide) (by decide) (by decide)).trans (by decide)

/-- Counterexample to C2 as stated: a readable cache file whose contents
    are only white space does not resolve to the trimmed (empty) contents;
    resolution falls back to the OS hostname instead. -/
theorem getHostname_cache_hit_refuted :
    FsState.lookup ⟨[("/opt/agent/config/hostname.txt", "\n")], [], [], []⟩
        "/opt/agent/config/hostname.txt" = some "\n"
    ∧ (getHostname ⟨[("/opt/agent/config/hostname.txt", "\n")], [], [], []⟩
        "zeta" "/opt/agent").1 = "zeta"
    ∧ ("zeta" : String) ≠ goTrimSpace "\n" := by decide

/-- C3 (amended): starting from an empty cache the first call returns the
    OS hostname; when that first hostname does not trim to the empty
    string, a second call with any other OS hostname returns the persisted
    value trimmed of surrounding white space, ignoring the new OS value. -/
theorem getHostname_cache_wins (dir h1 h2 : String)
    (hne : goTrimSpace h1 ≠ "") :
    (getHostname ⟨[], [], [], []⟩ h1 dir).1 = h1
    ∧ (getHostname (getHostname ⟨[], [], [], []⟩ h1 dir).2 h2 dir).1 =
        goTrimSpace h1 := by
  have hmiss : (getHostname (⟨[], [], [], []⟩ : FsState) h1 dir).1 = h1 :=
    getHostname_val_of_miss _ h1 dir (by simp) rfl
  refine ⟨hmiss, ?_⟩
  have hstate : (getHostname (⟨[], [], [], []⟩ : FsState) h1 dir).2 =
      ⟨[(hostFilePath dir, h1)], [], [], []⟩ := by
    rw [getHostname_snd, hmiss,
      writeHostNameToFile_snd _ _ _ (by simp)]
    rfl
  rw [hstate]
  exact getHostname_val_of_hit _ h2 dir h1 (by simp) (by simp)
    (by simp [FsState.lookup]) hne

/-- Witness for C3: with first OS hostname web-07 and second OS hostname
    web-99, the second call still returns web-07. -/
theorem getHostname_cache_wins_witness :
    (getHostname (getHostname ⟨[], [], [], []⟩ "web-07" "/opt/agent").2
        "web-99" "/opt/agent").1 = "web-07" :=
  ((getHostname_cache_wins "/opt/agent" "web-07" "web-99" (by decide)).2).trans
    (by decide)

/-- Counterexample to C3 as stated: when the first OS hostname is the
    empty string, the persisted (empty) value does not win the second
    call; the resolver falls back to the new OS hostname web-99. -/
theorem getHostname_cache_wins_refuted :
    (getHostname ⟨[], [], [], []⟩ "" "/opt/agent").1 = ""
    ∧ (getHostname (getHostname ⟨[], [], [], []⟩ "" "/opt/agent").2
        "web-99" "/opt/agent").1 = "web-99"
    ∧ ("web-99" : String) ≠ "" := by decide

/-- C4 (amended): when the cache path is writable (and statable and
    readable), resolution writes the resolved value to the cache file, and
    a subsequent read through readHostNameFromFile returns that value
    trimmed of surrounding white space — identical to the written value
    whenever the written value carries no surrounding white space. -/
theorem getHostname_write_back (fs : FsState) (osName dir : String)
    (hw : hostFilePath dir ∉ fs.writeFail)
    (hs : hostFilePath dir ∉ fs.statFail)
    (hr : hostFilePath dir ∉ fs.readFail) :
    (getHostname fs osName dir).2.lookup (hostFilePath dir) =
      some (getHostname fs osName dir).1
    ∧ readHostNameFromFile (getHostname fs osName dir).2 (hostFilePath dir) =
        (goTrimSpace (getHostname fs osName dir).1, none) := by
  have hstate := getHostname_snd fs osName dir
  rw [writeHostNameToFile_snd _ _ _ hw] at hstate
  have hlook : (getHostname fs osName dir).2.lookup (hostFilePath dir) =
      some (getHostname fs osName dir).1 := by
    rw [hstate]; simp [FsState.lookup]
  refine ⟨hlook, readHostNameFromFile_hit _ _ _ ?_ ?_ hlook⟩
  · rw [hstate]; exact hs
  · rw [hstate]; exact hr

/-- Witness for C4: resolving web-07 against an empty cache stores it and
    reads it back unchanged. -/
theorem getHostname_write_back_witness :
    (getHostname ⟨[], [], [], []⟩ "web-07" "/opt/agent").2.lookup
        (hostFilePath "/opt/agent") =
      some (getHostname ⟨[], [], [], []⟩ "web-07" "/opt/agent").1
    ∧ readHostNameFromFile (getHostname ⟨[], [], [], []⟩ "web-07" "/opt/agent").2
        (hostFilePath "/opt/agent") =
      (goTrimSpace (getHostname ⟨[], [], [], []⟩ "web-07" "/opt/agent").1, none) :=
  getHostname_write_back _ "web-07" "/opt/agent" (by decide) (by decide) (by decide)

/-- Counterexample to C4 as stated: an OS hostname with surrounding white
    space is written as-is, but the subsequent read returns the trimmed
    value, which is not identical to what was written. -/
theorem getHostname_write_back_refuted :
    (getHostname ⟨[], [], [], []⟩ " a " "/opt/agent").1 = " a "
    ∧ readHostNameFromFile (getHostname ⟨[], [], [], []⟩ " a " "/opt/agent").2
        "/opt/agent/config/hostname.txt" = ("a", none)
    ∧ ("a" : String) ≠ " a " := by decide

/-- C6: hostname resolution is total (it returns a plain string, never an
    error), and the returned value does not depend on whether the
    write-back succeeds: replacing the set of write-failing paths by any
    other set leaves the resolved value unchanged. -/
theorem getHostname_value_ignores_write_failure (fs : FsState)
    (osName dir : String) (wf : List String) :
    (getHostname { fs with writeFail := wf } osName dir).1 =
      (getHostname fs osName dir).1 :=
  rfl

/-- C9: a missing cache file whose existence check succeeds makes
    readHostNameFromFile return the empty string with a nil error, exactly
    like a cached empty hostname; at the call site both make resolution
    fall back to the OS hostname, so the fallback is triggered by the
    emptiness of the value, not by an error. -/
theorem readHostName_miss_is_silent (fs : FsState) (osName dir : String)
    (hs : hostFilePath dir ∉ fs.statFail)
    (hr : hostFilePath dir ∉ fs.readFail)
    (hc : fs.lookup (hostFilePath dir) = none) :
    readHostNameFromFile fs (hostFilePath dir) = ("", none)
    ∧ readHostNameFromFile
        { fs with files := (hostFilePath dir, "") :: fs.files }
        (hostFilePath dir) = ("", none)
    ∧ (getHostname fs osName dir).1 =
        (getHostname { fs with files := (hostFilePath dir, "") :: fs.files }
          osName dir).1
    ∧ (getHostname fs osName dir).1 = osName := by
  have h1 := readHostNameFromFile_miss fs _ hs hc
  have h2 : readHostNameFromFile
      { fs with files := (hostFilePath dir, "") :: fs.files }
      (hostFilePath dir) = ("", none) := by
    have := readHostNameFromFile_hit
      { fs with files := (hostFilePath dir, "") :: fs.files }
      (hostFilePath dir) "" hs hr (by simp [FsState.lookup])
    simpa using this
  have h4 := getHostname_val_of_empty_read fs osName dir h1
  have h5 := getHostname_val_of_empty_read _ osName dir h2
  exact ⟨h1, h2, h4.trans h5.symm, h4⟩

/-- Witness for C9 at an empty filesystem with OS hostname node-1. -/
theorem readHostName_miss_is_silent_witness :
    readHostNameFromFile ⟨[], [], [], []⟩ (hostFilePath "/opt/agent") = ("", none)
    ∧ readHostNameFromFile ⟨[(hostFilePath "/opt/agent", "")], [], [], []⟩
        (hostFilePath "/opt/agent") = ("", none)
    ∧ (getHostname ⟨[], [], [], []⟩ "node-1" "/opt/agent").1 =
        (getHostname ⟨[(hostFilePath "/opt/agent", "")], [], [], []⟩
          "node-1" "/opt/agent").1
    ∧ (getHostname ⟨[], [], [], []⟩ "node-1" "/opt/agent").1 = "node-1" :=
  readHostName_miss_is_silent ⟨[], [], [], []⟩ "node-1" "/opt/agent"
    (by decide) (by decide) (by decide)

/-! ### Helper lemmas about NewEnviron -/

lemma NewEnviron_eq_err_abs (w : World) (e : GoErr)
    (h : w.absPath = .error e) : NewEnviron w = .err e := by
  simp [NewEnviron, h]

lemma NewEnviron_eq_err_md5 (w : World) (p : String) (e : GoErr)
    (hp : w.absPath = .ok p) (h : w.md5Res = .error e) :
    NewEnviron w = .err e := by
  simp [NewEnviron, hp, h]

lemma NewEnviron_eq_err_dial (w : World) (p m : String) (e : GoErr)
    (hp : w.absPath = .ok p) (hm : w.md5Res = .ok m)
    (h : w.dial = .error e) : NewEnviron w = .err e := by
  simp [NewEnviron, hp, hm, h, GetDefaultIp]

lemma NewEnviron_eq_panicked (w : World) (p m : String)
    (hp : w.absPath = .ok p) (hm : w.md5Res = .ok m)
    (h : w.dial = .ok GoAddr.other) : NewEnviron w = .panicked := by
  simp [NewEnviron, hp, hm, h, GetDefaultIp]

lemma NewEnviron_eq_ok (w : World) (p m ip : String) (port : Nat)
    (hp : w.absPath = .ok p) (hm : w.md5Res = .ok m)
    (hd : w.dial = .ok (GoAddr.udp ip port)) :
    NewEnviron w = .ok
      { InstallDir := goDir (goDir p)
        HostName := (getHostname w.fs w.osHostname (goDir (goDir p))).1
        Ip := (goSplitColon ip).headD ""
        OsType := w.goos
        BinFileName := goBase p
        BinFileHash := m
        TotalMem := w.memTotal / GB
        CpuCounts := w.cpuCount
        FreeDisk := (GetInstallDisk w.diskFree).1
        Version := w.version
        BuildDateTime := w.buildDateTime
        BuildGitBranch := w.buildGitBranch
        BuildGitCommit := w.buildGitCommit
        BuildDecryptKey := w.buildDecryptKey
        PidFile := goJoin [goDir (goDir p), w.daemonPidFile]
        IsContainer := (utilsPathExists w.dockerenv).1
        IsConnectServer := false } := by
  simp [NewEnviron, hp, hm, hd, GetDefaultIp]

/-! ### Claims about NewEnviron -/

/-- C1: under the collaborator contracts (a UDP dial yields a UDP local
    address; the memory and cpu providers report zero alongside an error),
    NewEnviron returns a snapshot exactly when executable-path resolution,
    binary hashing and the route probe all succeed — so a memory, cpu,
    disk or container-marker failure never aborts construction — and in
    any returned snapshot an errored collaborator's field is zero (or
    false for the container marker). -/
theorem NewEnviron_error_iff_fatal (w : World)
    (hudp : ∀ a, w.dial = .ok a → ∃ ip port, a = GoAddr.udp ip port)
    (hmem : w.memErr.isSome → w.memTotal = 0)
    (hcpu : w.cpuErr.isSome → w.cpuCount = 0) :
    ((∃ env, NewEnviron w = .ok env) ↔
      (∃ p, w.absPath = .ok p) ∧ (∃ m, w.md5Res = .ok m)
        ∧ (∃ a, w.dial = .ok a))
    ∧ NewEnviron w ≠ .panicked
    ∧ ∀ env, NewEnviron w = .ok env →
        (w.memErr.isSome → env.TotalMem = 0)
        ∧ (w.cpuErr.isSome → env.CpuCounts = 0)
        ∧ ((∃ e, w.diskFree = .error e) → env.FreeDisk = 0)
        ∧ ((∃ e, w.dockerenv = StatOutcome.err e) → env.IsContainer = false) := by
  refine ⟨⟨?_, ?_⟩, ?_, ?_⟩
  · rintro ⟨env, henv⟩
    rcases habs : w.absPath with e | p
    · rw [NewEnviron_eq_err_abs w e habs] at henv; simp at henv
    rcases hmd5 : w.md5Res with e | m
    · rw [NewEnviron_eq_err_md5 w p e habs hmd5] at henv; simp at henv
    rcases hdial : w.dial with e | a
    · rw [NewEnviron_eq_err_dial w p m e habs hmd5 hdial] at henv; simp at henv
    exact ⟨⟨p, rfl⟩, ⟨m, rfl⟩, ⟨a, rfl⟩⟩
  · rintro ⟨⟨p, hp⟩, ⟨m, hm⟩, ⟨a, hd⟩⟩
    obtain ⟨ip, port, rfl⟩ := hudp a hd
    exact ⟨_, NewEnviron_eq_ok w p m ip port hp hm hd⟩
  · rcases habs : w.absPath with e | p
    · rw [NewEnviron_eq_err_abs w e habs]; simp
    rcases hmd5 : w.md5Res with e | m
    · rw [NewEnviron_eq_err_md5 w p e habs hmd5]; simp
    rcases hdial : w.dial with e | a
    · rw [NewEnviron_eq_err_dial w p m e habs hmd5 hdial]; simp
    obtain ⟨ip, port, rfl⟩ := hudp a hdial
    rw [NewEnviron_eq_ok w p m ip port habs hmd5 hdial]; simp
  · intro env henv
    rcases habs : w.absPath with e | p
    · rw [NewEnviron_eq_err_abs w e habs] at henv; simp at henv
    rcases hmd5 : w.md5Res with e | m
    · rw [NewEnviron_eq_err_md5 w p e habs hmd5] at henv; simp at henv
    rcases hdial : w.dial with e | a
    · rw [NewEnviron_eq_err_dial w p m e habs hmd5 hdial] at henv; simp at henv
    obtain ⟨ip, port, rfl⟩ := hudp a hdial
    rw [NewEnviron_eq_ok w p m ip port habs hmd5 hdial] at henv
    injection henv with h
    subst h
    refine ⟨?_, ?_, ?_, ?_⟩
    · intro hms
      show w.memTotal / GB = 0
      rw [hmem hms]
      exact Nat.zero_div _
    · intro hcs
      exact hcpu hcs
    · rintro ⟨e, hde⟩
      show (GetInstallDisk w.diskFree).1 = 0
      rw [hde]
      rfl
    · rintro ⟨e, hde⟩
      show (utilsPathExists w.dockerenv).1 = false
      rw [hde]
      rfl

/-- World for the C1 witness: fatal steps succeed while the memory, cpu,
    disk and container-marker collaborators all fail. -/
def c1World : World :=
  { absPath := .ok "/opt/agent/bin/agentd"
    md5Res := .ok "0d41d8cd98f00b204e9800998ecf8427e"
    dial := .ok (GoAddr.udp "10.0.0.7" 4242)
    memTotal := 0
    memErr := some .memErr
    diskFree := .error .diskErr
    cpuCount := 0
    cpuErr := some .cpuErr
    dockerenv := .err .statErr
    osHostname := "web-07"
    fs := ⟨[], [], [], []⟩
    goos := "linux"
    version := "1.1.1"
    buildDateTime := "2023-01-01"
    buildGitBranch := "main"
    buildGitCommit := "abcdef"
    buildDecryptKey := "0123456789abcdef"
    daemonPidFile := "jrasp-daemon.pid" }

/-- Witness for C1: with every non-fatal collaborator failing, a snapshot
    is still returned and its enrichment fields are zero or false. -/
theorem NewEnviron_error_iff_fatal_witness :
    ∃ env, NewEnviron c1World = .ok env ∧ env.TotalMem = 0
      ∧ env.CpuCounts = 0 ∧ env.FreeDisk = 0 ∧ env.IsContainer = false := by
  have h := NewEnviron_error_iff_fatal c1World
    (by intro a ha; cases ha; exact ⟨_, _, rfl⟩)
    (by intro _; rfl)
    (by intro _; rfl)
  obtain ⟨env, henv⟩ := h.1.mpr ⟨⟨_, rfl⟩, ⟨_, rfl⟩, ⟨_, rfl⟩⟩
  have h2 := h.2.2 env henv
  exact ⟨env, henv, h2.1 rfl, h2.2.1 rfl, h2.2.2.1 ⟨_, rfl⟩, h2.2.2.2 ⟨_, rfl⟩⟩

/-- C7: in every successfully built snapshot, installDir is the result of
    applying the directory operation twice to the resolved absolute
    executable path, i.e. the grandparent directory of the binary. -/
theorem NewEnviron_installDir_grandparent (w : World) (env : Environ)
    (p : String) (hp : w.absPath = .ok p) (henv : NewEnviron w = .ok env) :
    env.InstallDir = goDir (goDir p) := by
  rcases hmd5 : w.md5Res with e | m
  · rw [NewEnviron_eq_err_md5 w p e hp hmd5] at henv; simp at henv
  rcases hdial : w.dial with e | a
  · rw [NewEnviron_eq_err_dial w p m e hp hmd5 hdial] at henv; simp at henv
  cases a with
  | udp ip port =>
      rw [NewEnviron_eq_ok w p m ip port hp hmd5 hdial] at henv
      injection henv with h
      subst h
      rfl
  | other =>
      rw [NewEnviron_eq_panicked w p m hp hmd5 hdial] at henv
      simp at henv

/-- World for the C7 witness: executable at /opt/agent/bin/agentd. -/
def c7World : World :=
  { absPath := .ok "/opt/agent/bin/agentd"
    md5Res := .ok "9e107d9d372bb6826bd81d3542a419d6"
    dial := .ok (GoAddr.udp "10.1.2.3" 999)
    memTotal := 8 * GB
    memErr := none
    diskFree := .ok (100 * GB)
    cpuCount := 4
    cpuErr := none
    dockerenv := .absent
    osHostname := "web-07"
    fs := ⟨[], [], [], []⟩
    goos := "linux"
    version := "1.1.1"
    buildDateTime := "2023-01-01"
    buildGitBranch := "main"
    buildGitCommit := "abcdef"
    buildDecryptKey := "0123456789abcdef"
    daemonPidFile := "jrasp-daemon.pid" }

/-- Witness for C7: the executable /opt/agent/bin/agentd yields the
    install directory /opt/agent. -/
theorem NewEnviron_installDir_grandparent_witness :
    ∃ env, NewEnviron c7World = .ok env ∧ env.InstallDir = "/opt/agent" := by
  obtain ⟨env, henv⟩ : ∃ env, NewEnviron c7World = .ok env := ⟨_, rfl⟩
  exact ⟨env, henv,
    (NewEnviron_installDir_grandparent c7World env "/opt/agent/bin/agentd"
      rfl henv).trans (by decide)⟩

/-- C8: in every successfully built snapshot, isContainer is true exactly
    when the /.dockerenv marker is present (absence and a failing
    existence check both give false), and changing the marker-check
    outcome, a failing check included, never changes whether the build
    returns a snapshot. -/
theorem NewEnviron_isContainer_iff (w : World) :
    (∀ env, NewEnviron w = .ok env →
      (env.IsContainer = true ↔ w.dockerenv = StatOutcome.present))
    ∧ ∀ s s', ((∃ env, NewEnviron { w with dockerenv := s } = .ok env) ↔
        (∃ env, NewEnviron { w with dockerenv := s' } = .ok env)) := by
  constructor
  · intro env henv
    rcases habs : w.absPath with e | p
    · rw [NewEnviron_eq_err_abs w e habs] at henv; simp at henv
    rcases hmd5 : w.md5Res with e | m
    · rw [NewEnviron_eq_err_md5 w p e habs hmd5] at henv; simp at henv
    rcases hdial : w.dial with e | a
    · rw [NewEnviron_eq_err_dial w p m e habs hmd5 hdial] at henv; simp at henv
    cases a with
    | udp ip port =>
        rw [NewEnviron_eq_ok w p m ip port habs hmd5 hdial] at henv
        injection henv with h
        subst h
        show (utilsPathExists w.dockerenv).1 = true ↔ _
        cases w.dockerenv <;> simp [utilsPathExists]
    | other =>
        rw [NewEnviron_eq_panicked w p m habs hmd5 hdial] at henv
        simp at henv
  · intro s s'
    rcases habs : w.absPath with e | p
    · constructor <;> rintro ⟨env, henv⟩ <;> simp [NewEnviron] at henv
    rcases hmd5 : w.md5Res with e | m
    · constructor <;> rintro ⟨env, henv⟩ <;> simp [NewEnviron] at henv
    rcases hdial : w.dial with e | a
    · constructor <;> rintro ⟨env, henv⟩ <;>
        simp [NewEnviron, GetDefaultIp] at henv
    cases a with
    | udp ip port =>
        constructor <;> intro _ <;>
          exact ⟨_, NewEnviron_eq_ok _ p m ip port rfl rfl rfl⟩
    | other =>
        constructor <;> rintro ⟨env, henv⟩ <;>
          simp [NewEnviron, GetDefaultIp] at henv

/-- World for the C8 witness: the /.dockerenv marker is present. -/
def c8World : World :=
  { absPath := .ok "/opt/agent/bin/agentd"
    md5Res := .ok "9e107d9d372bb6826bd81d3542a419d6"
    dial := .ok (GoAddr.udp "172.17.0.2" 999)
    memTotal := 8 * GB
    memErr := none
    diskFree := .ok (100 * GB)
    cpuCount := 4
    cpuErr := none
    dockerenv := .present
    osHostname := "container-1"
    fs := ⟨[], [], [], []⟩
    goos := "linux"
    version := "1.1.1"
    buildDateTime := "2023-01-01"
    buildGitBranch := "main"
    buildGitCommit := "abcdef"
    buildDecryptKey := "0123456789abcdef"
    daemonPidFile := "jrasp-daemon.pid" }

/-- Witness for C8: with the marker present, the snapshot reports
    isContainer true. -/
theorem NewEnviron_isContainer_iff_witness :
    ∃ env, NewEnviron c8World = .ok env ∧ env.IsContainer = true := by
  obtain ⟨env, henv⟩ : ∃ env, NewEnviron c8World = .ok env := ⟨_, rfl⟩
  exact ⟨env, henv, ((NewEnviron_isContainer_iff c8World).1 env henv).mpr rfl⟩

end environ
